import Mathlib

/-!
Shallow embedding of the query / statistics / event-correlation engine of the
Bayesian Oil Market Insights repository.

The embedded code is:
  * the Flask backend `src/dashboard/backend/app.py` (handlers `health_check`,
    `get_prices`, `get_events`, `get_changepoint`, `get_statistics`,
    `get_event_types`, `get_date_range`, and the module-level
    `load_all_data` state), and
  * the before/after partitioning and the `abs_days` proximity sort of the
    Streamlit dashboard `src/dashboard/app.py`.

Modelling conventions, stated once here and referenced from the definitions:
  * pandas Timestamps are modelled as `Int` day numbers; the ISO rendering
    `dt.strftime` applied before serialisation is injective on days and is
    dropped from the output records;
  * prices and returns are rationals; a pandas cell that may hold the IEEE
    NaN (the `log_return` column, whose first row is NaN) is an `Option Rat`
    with `none` for NaN, and a serialised numeric JSON field is a `JVal`
    (null / NaN / number) so that Python `None` and float `nan` stay distinct;
  * pandas reductions over a column skip NaN cells (`skipna=True` default),
    and `Series.std` uses the sample `ddof=1` denominator, returning NaN when
    fewer than two non-NaN cells remain.
-/

namespace OilMarket

/-- A row of the loaded `brent_with_changepoint.csv` dataframe: the pandas
Timestamp as an integer day number, the price, and the `log_return` cell,
which is NaN (`none`) on the first row of the series. -/
structure PriceRow where
  date : Int
  price : Rat
  log_return : Option Rat
deriving DecidableEq, Repr

/-- A row of the loaded `structured_events.csv` dataframe. -/
structure EventRow where
  date : Int
  event_type : String
  description : String
  expected_impact : String
deriving DecidableEq, Repr

/-- The `changepoint_results.json` record, served verbatim by the
changepoint endpoint.  Field list follows the keys the dashboard reads. -/
structure CpResults where
  change_point_date : Int
  change_point_index : Int
  change_point_uncertainty_days : Rat
  mu_before : Rat
  mu_after : Rat
  sigma_before : Rat
  sigma_after : Rat
  mean_change : Rat
  volatility_change : Rat
  prob_mean_increase : Rat
  prob_volatility_increase : Rat
  price_before : Rat
  price_after : Rat
  price_change_pct : Rat
deriving DecidableEq, Repr

/-- The module-level globals of the backend,
`price_data, events_data, changepoint_results = load_all_data()`.
`load_all_data` returns the three loaded artifacts, or `(None, None, None)`
when any of the three reads raised. -/
structure Store where
  price_data : Option (List PriceRow)
  events_data : Option (List EventRow)
  changepoint_results : Option CpResults
deriving DecidableEq, Repr

/-- The state after a failed `load_all_data`: all three globals are `None`. -/
def failedStore : Store := ⟨none, none, none⟩

/-- A query-string parameter value as the handler sees it after
`request.args.get`: the empty string (falsy in Python), a nonempty string
that `pd.to_datetime` parses to a calendar date (carried as its day number),
or a nonempty string on which `pd.to_datetime` raises.  Date strings are
abstracted to this inductive because `pd.to_datetime` accepts far more than
ISO-8601; the claims only distinguish parseable from unparseable. -/
inductive QueryStr
  | empty
  | dateStr (day : Int)
  | malformed (s : String)
deriving DecidableEq, Repr

/-- An endpoint response: `ok` is the jsonify of the handler body (HTTP 200,
success true); `err` is the except-branch `jsonify(success=False, error=str(e))`
together with the HTTP status the handler attaches (always 500 here). -/
inductive ApiResult (α : Type)
  | ok (data : α)
  | err (status : Nat) (error : String)
deriving DecidableEq, Repr

/-- Whether the response is the except-branch failure shape. -/
def ApiResult.isFailure {α : Type} : ApiResult α → Bool
  | .ok _ => false
  | .err _ _ => true

/-- The HTTP status of the response: Flask defaults a jsonify to 200, the
failure branches attach 500 explicitly. -/
def ApiResult.httpStatus {α : Type} : ApiResult α → Nat
  | .ok _ => 200
  | .err s _ => s

/-- `df = global.copy()`: raises AttributeError when the global is `None`
(failed load), otherwise hands the handler its own copy. -/
def copyDf {α : Type} : Option α → Except String α
  | none => .error "NoneType object has no attribute copy"
  | some df => .ok df

/-- The block `if start_date: df = df[df.Date >= pd.to_datetime(start_date)]`,
generic in the row type through a date projection: an absent or empty (falsy)
parameter skips the filter, a parseable one keeps the rows dated on or after
it, an unparseable one raises inside `pd.to_datetime`. -/
def applyStartFilter {ρ : Type} (dateOf : ρ → Int) (q : Option QueryStr)
    (df : List ρ) : Except String (List ρ) :=
  match q with
  | none => .ok df
  | some .empty => .ok df
  | some (.dateStr d) => .ok (df.filter (fun r => decide (d ≤ dateOf r)))
  | some (.malformed s) => .error (s ++ " is not a parseable date")

/-- The block `if end_date: df = df[df.Date <= pd.to_datetime(end_date)]`,
same conventions as the start filter. -/
def applyEndFilter {ρ : Type} (dateOf : ρ → Int) (q : Option QueryStr)
    (df : List ρ) : Except String (List ρ) :=
  match q with
  | none => .ok df
  | some .empty => .ok df
  | some (.dateStr d) => .ok (df.filter (fun r => decide (dateOf r ≤ d)))
  | some (.malformed s) => .error (s ++ " is not a parseable date")

/-- The block `if event_type: df = df[df.Event_Type == event_type]`: an absent
or empty (falsy) parameter skips the filter, any other value keeps the rows of
exactly that type.  No parsing is involved, so this never raises. -/
def applyTypeFilter (t : Option String) (df : List EventRow) : List EventRow :=
  match t with
  | none => df
  | some s => if s = "" then df else df.filter (fun e => decide (e.event_type = s))

/-- A successful listing body: `count` is `len(df)` and `data` the serialised
rows of the same dataframe. -/
structure Listing (α : Type) where
  count : Nat
  data : List α
deriving DecidableEq, Repr

/-- GET /api/health.  The handler reads no state and returns a constant
success payload; the store argument records that it is defined in every
state of the process. -/
def health_check (_st : Store) : ApiResult (String × String × String) :=
  .ok ("healthy", "Bayesian Oil Market API is running", "1.0.0")

/-- The shared opening of the three dataframe endpoints: copy the global
(raising when it is `None`), then the two optional date filter blocks, an
exception in any stage propagating to the handler's except branch. -/
def datedSlice {ρ : Type} (dateOf : ρ → Int) (src : Option (List ρ))
    (a b : Option QueryStr) : Except String (List ρ) :=
  match copyDf src with
  | .error e => .error e
  | .ok df =>
    match applyStartFilter dateOf a df with
    | .error e => .error e
    | .ok df =>
      match applyEndFilter dateOf b df with
      | .error e => .error e
      | .ok df => .ok df

/-- GET /api/prices: copy the global price dataframe (raising when it is
`None`), apply the two optional date filters, and answer with the row count
and the rows; any exception becomes the 500 failure shape. -/
def get_prices (st : Store) (start_date end_date : Option QueryStr) :
    ApiResult (Listing PriceRow) :=
  match datedSlice PriceRow.date st.price_data start_date end_date with
  | .ok df => .ok ⟨df.length, df⟩
  | .error e => .err 500 e

/-- GET /api/events: same shape as the price listing, with the additional
event-type filter applied after the date filters. -/
def get_events (st : Store) (start_date end_date : Option QueryStr)
    (event_type : Option String) : ApiResult (Listing EventRow) :=
  match datedSlice EventRow.date st.events_data start_date end_date with
  | .ok df =>
    let df := applyTypeFilter event_type df
    .ok ⟨df.length, df⟩
  | .error e => .err 500 e

/-- GET /api/changepoint: `jsonify(success=True, data=changepoint_results)`.
A `None` payload serialises as JSON null and raises nothing, so the
surrounding try never reaches its except branch. -/
def get_changepoint (st : Store) : ApiResult (Option CpResults) :=
  .ok st.changepoint_results

/-- A serialised numeric JSON field of the statistics payload: Python `None`
(JSON null, produced by the missing-column branch), the IEEE NaN a pandas
reduction can hand to `float(...)`, or a finite number. -/
inductive JVal
  | null
  | nan
  | num (q : Rat)
deriving DecidableEq, Repr

/-- The non-NaN cells of a column, in order: pandas reductions default to
`skipna=True` and operate on exactly these. -/
def dropna (xs : List (Option Rat)) : List Rat := xs.filterMap id

/-- `Series.mean()` then `float(...)`: NaN on an all-NaN (or empty) column,
otherwise the arithmetic mean of the non-NaN cells. -/
def seriesMean (xs : List (Option Rat)) : JVal :=
  match dropna xs with
  | [] => .nan
  | x :: d => .num ((x :: d).sum / (((x :: d).length : Nat) : Rat))

/-- `Series.std()` then `float(...)`, with the pandas default `ddof=1`: NaN
when fewer than two non-NaN cells remain, otherwise the sample standard
deviation with the N-1 denominator.  The reported float is the square root
of the value recorded here; the square root is irrational in general and
preserves NaN-ness, zero-ness and the N-1 denominator the claims speak
about, so this embedding carries the variance (the squared std). -/
def seriesStdSq (xs : List (Option Rat)) : JVal :=
  let d := dropna xs
  if d.length < 2 then .nan
  else
    .num ((d.map (fun x => (x - d.sum / (d.length : Rat)) ^ 2)).sum
            / ((d.length : Rat) - 1))

/-- `Series.median()` then `float(...)`: NaN on an empty column, the middle
order statistic for an odd count, the mean of the two middle ones for an
even count. -/
def seriesMedian (xs : List (Option Rat)) : JVal :=
  match List.insertionSort (fun a b : Rat => a ≤ b) (dropna xs) with
  | [] => .nan
  | d₀ :: d =>
    let s := d₀ :: d
    if s.length % 2 = 1 then .num (s.getD (s.length / 2) 0)
    else .num ((s.getD (s.length / 2 - 1) 0 + s.getD (s.length / 2) 0) / 2)

/-- `Series.min()` then `float(...)`: NaN on an empty column. -/
def seriesMin (xs : List (Option Rat)) : JVal :=
  match dropna xs with
  | [] => .nan
  | x :: d => .num (d.foldl min x)

/-- `Series.max()` then `float(...)`: NaN on an empty column. -/
def seriesMax (xs : List (Option Rat)) : JVal :=
  match dropna xs with
  | [] => .nan
  | x :: d => .num (d.foldl max x)

/-- The statistics payload of GET /api/statistics.  The source guards
`mean_return` and `volatility` with `if log_return in df.columns else None`;
the loaded `brent_with_changepoint.csv` always carries that column (the
dashboard reads `df.log_return` unconditionally), so the `None` branch is
unreachable once data has loaded and the two fields are the pandas
reductions over the column, NaN included. -/
structure StatsOut where
  count : Nat
  mean_price : JVal
  median_price : JVal
  std_price : JVal
  min_price : JVal
  max_price : JVal
  mean_return : JVal
  volatility : JVal
deriving DecidableEq, Repr

/-- The Price column of a dataframe slice (no NaN cells: the CSV prices are
all finite numbers). -/
def priceCol (df : List PriceRow) : List (Option Rat) :=
  df.map (fun r => some r.price)

/-- The log_return column of a dataframe slice, NaN cells included. -/
def returnCol (df : List PriceRow) : List (Option Rat) :=
  df.map PriceRow.log_return

/-- GET /api/statistics: copy the global price dataframe, apply the two
optional date filters, then serialise the pandas reductions of the slice. -/
def get_statistics (st : Store) (start_date end_date : Option QueryStr) :
    ApiResult StatsOut :=
  match datedSlice PriceRow.date st.price_data start_date end_date with
  | .error e => .err 500 e
  | .ok df =>
    .ok ⟨df.length,
         seriesMean (priceCol df), seriesMedian (priceCol df),
         seriesStdSq (priceCol df), seriesMin (priceCol df),
         seriesMax (priceCol df),
         seriesMean (returnCol df), seriesStdSq (returnCol df)⟩

/-- `Series.unique().tolist()`: the distinct values in order of first
appearance. -/
def uniqueVals (xs : List String) : List String :=
  xs.foldl (fun acc x => if x ∈ acc then acc else acc ++ [x]) []

/-- GET /api/event-types: `events_data[Event_Type].unique().tolist()`;
subscripting the `None` global raises into the except branch. -/
def get_event_types (st : Store) : ApiResult (List String) :=
  match st.events_data with
  | none => .err 500 "NoneType object is not subscriptable"
  | some df => .ok (uniqueVals (df.map EventRow.event_type))

/-- GET /api/date-range: min and max of the Date column, rendered as ISO
strings; subscripting the `None` global raises, and `strftime` on the NaT
min of an empty column raises as well. -/
def get_date_range (st : Store) : ApiResult (Int × Int) :=
  match st.price_data with
  | none => .err 500 "NoneType object is not subscriptable"
  | some df =>
    match df.map PriceRow.date with
    | [] => .err 500 "NaTType does not support strftime"
    | x :: ds => .ok (ds.foldl min x, ds.foldl max x)

/-- The WSGI routing of GET /api/prices: the handler runs against the module
globals and returns its response; the handler body only binds locals (no
`global` statement appears in the source), so the state it leaves behind is
the state it was given. -/
def get_prices_route (st : Store) (a b : Option QueryStr) :
    ApiResult (Listing PriceRow) × Store :=
  (get_prices st a b, st)

/-- The WSGI routing of GET /api/events, same convention. -/
def get_events_route (st : Store) (a b : Option QueryStr) (t : Option String) :
    ApiResult (Listing EventRow) × Store :=
  (get_events st a b t, st)

/-- The WSGI routing of GET /api/statistics, same convention. -/
def get_statistics_route (st : Store) (a b : Option QueryStr) :
    ApiResult StatsOut × Store :=
  (get_statistics st a b, st)

/-!  The dashboard side (`src/dashboard/app.py`). -/

/-- `before = df_filtered[df_filtered.Date < change_date]` (Price Analysis
page; the same strict comparison appears in `create_returns_chart`). -/
def before_slice (df : List PriceRow) (cp : Int) : List PriceRow :=
  df.filter (fun r => decide (r.date < cp))

/-- `after = df_filtered[df_filtered.Date >= change_date]`. -/
def after_slice (df : List PriceRow) (cp : Int) : List PriceRow :=
  df.filter (fun r => decide (cp ≤ r.date))

/-- A row of the `events_analysis` dataframe on the Event Analysis page:
the event together with `days_from_changepoint = (Date - change_date).dt.days`
and `abs_days` its absolute value. -/
structure CorrRow where
  event : EventRow
  days_from_changepoint : Int
  abs_days : Nat
deriving DecidableEq, Repr

/-- The decorated `events_analysis` rows before sorting, in catalog order. -/
def corrRows (events : List EventRow) (cp : Int) : List CorrRow :=
  events.map (fun e => ⟨e, e.date - cp, (e.date - cp).natAbs⟩)

/-- The proximity ordering relation used by `sort_values(abs_days)`: the key
mentions only `abs_days` — neither the event date nor the row index. -/
def byAbsDays (a b : CorrRow) : Prop := a.abs_days ≤ b.abs_days

instance : DecidableRel byAbsDays := fun a b => Nat.decLe a.abs_days b.abs_days

instance : IsTotal CorrRow byAbsDays := ⟨fun a b => Nat.le_total a.abs_days b.abs_days⟩

instance : IsTrans CorrRow byAbsDays := ⟨fun _ _ _ => Nat.le_trans⟩

/-- `events_analysis.sort_values(abs_days)` (Event Analysis page).  pandas
delegates to numpy's default sort, which runs its stable insertion-sort leg
on arrays below the introsort cutoff of 16 elements — every catalog this
repository ships (15 events) and every slice of it; the embedding uses the
stable insertion sort on the `abs_days` key alone, matching the source in
that the key consults neither the date nor the original index. -/
def correlate (events : List EventRow) (cp : Int) : List CorrRow :=
  List.insertionSort byAbsDays (corrRows events cp)

/-!  Concrete fixtures used by counterexamples and witnesses. -/

/-- Day 0 of the demo series: the first observation, whose log_return cell
is NaN (no prior price to difference against). -/
def demoRow0 : PriceRow := ⟨0, 50, none⟩

/-- Day 1 of the demo series, with a defined log_return. -/
def demoRow1 : PriceRow := ⟨1, 51, some (1/100)⟩

/-- A demo event catalog entry. -/
def demoEvent : EventRow := ⟨0, "OPEC_Decision", "quota cut announced", "price up"⟩

/-- A demo changepoint record. -/
def demoCp : CpResults := ⟨1, 1, 0, 0, 0, 0, 0, 0, 0, 1/2, 1/2, 50, 51, 2⟩

/-- A store in the successfully-loaded state over the demo artifacts. -/
def demoStore : Store := ⟨some [demoRow0, demoRow1], some [demoEvent], some demoCp⟩

/-- An event one day after a changepoint at day 0, listed first in its
catalog. -/
def evLater : EventRow := ⟨1, "Geopolitical", "conflict starts", "price up"⟩

/-- An event one day before the same changepoint, listed second. -/
def evEarlier : EventRow := ⟨-1, "OPEC_Decision", "quota talks", "price down"⟩

/-- The sub-series the spec says the date filter must select: the rows whose
date satisfies both optional bounds, in source order (spec section 4.2).
This is the claim-side characterisation against which the embedded handler
is compared. -/
def boundedSlice (df : List PriceRow) (a b : Option Int) : List PriceRow :=
  df.filter (fun r =>
    (a.all fun x => decide (x ≤ r.date)) && (b.all fun x => decide (r.date ≤ x)))

/-- The Price column of the slice selected by a pair of parsed bounds, as a
plain list of rationals — the claim-side object the statistics are about. -/
def slicePrices (l : List PriceRow) (a b : Option Int) : List Rat :=
  (boundedSlice l a b).map PriceRow.price

/-- The sample variance — the square of the sample standard deviation with
the N-1 denominator the spec prescribes for N greater than one. -/
def sampleVarSq (d : List Rat) : Rat :=
  (d.map (fun x => (x - d.sum / (d.length : Rat)) ^ 2)).sum / ((d.length : Rat) - 1)

/-- The defined (non-NaN) log_return cells of the slice selected by a pair
of parsed bounds. -/
def definedReturns (l : List PriceRow) (a b : Option Int) : List Rat :=
  dropna (returnCol (boundedSlice l a b))

/-- Either date-filter stage returns a sub-sequence of its input. -/
theorem applyStartFilter_sublist {ρ : Type} (dateOf : ρ → Int) (q : Option QueryStr)
    (df df' : List ρ) (h : applyStartFilter dateOf q df = .ok df') :
    df'.Sublist df := by
  cases q with
  | none => cases h; exact List.Sublist.refl _
  | some q' =>
    cases q' with
    | empty => cases h; exact List.Sublist.refl _
    | dateStr d => cases h; exact List.filter_sublist _
    | malformed s => cases h

/-- Either date-filter stage returns a sub-sequence of its input. -/
theorem applyEndFilter_sublist {ρ : Type} (dateOf : ρ → Int) (q : Option QueryStr)
    (df df' : List ρ) (h : applyEndFilter dateOf q df = .ok df') :
    df'.Sublist df := by
  cases q with
  | none => cases h; exact List.Sublist.refl _
  | some q' =>
    cases q' with
    | empty => cases h; exact List.Sublist.refl _
    | dateStr d => cases h; exact List.filter_sublist _
    | malformed s => cases h

/-- On a loaded store with parseable (or absent) bounds the shared slicing
succeeds and selects exactly the rows within both bounds, in source order. -/
theorem datedSlice_parsed {ρ : Type} (dateOf : ρ → Int) (l : List ρ)
    (a b : Option Int) :
    datedSlice dateOf (some l) (a.map .dateStr) (b.map .dateStr)
      = .ok (l.filter fun r =>
          (a.all fun x => decide (x ≤ dateOf r)) && (b.all fun x => decide (dateOf r ≤ x))) := by
  cases a <;> cases b <;>
    simp [datedSlice, copyDf, applyStartFilter, applyEndFilter,
      List.filter_filter, Bool.and_comm]

/-- A successful shared slicing returns a sub-sequence of the stored list. -/
theorem datedSlice_sublist {ρ : Type} (dateOf : ρ → Int) (l : List ρ)
    (a b : Option QueryStr) (df : List ρ)
    (h : datedSlice dateOf (some l) a b = .ok df) : df.Sublist l := by
  rw [datedSlice] at h
  simp only [copyDf] at h
  split at h
  · cases h
  · rename_i df1 heq1
    split at h
    · cases h
    · rename_i df2 heq2
      cases h
      exact (applyEndFilter_sublist _ _ _ _ heq2).trans
        (applyStartFilter_sublist _ _ _ _ heq1)

/-- C1: on a loaded store, the price listing with any optional parsed date
bounds answers success with exactly the rows of the source whose date lies
within both bounds, in source order; on an inverted range the selected slice
is empty, and the events listing likewise answers success with an empty
list. -/
theorem get_prices_filters_by_date (l : List PriceRow) (es : Option (List EventRow))
    (cp : Option CpResults) (a b : Option Int) :
    get_prices ⟨some l, es, cp⟩ (a.map .dateStr) (b.map .dateStr)
      = .ok ⟨(boundedSlice l a b).length, boundedSlice l a b⟩
    ∧ (∀ x y : Int, y < x → boundedSlice l (some x) (some y) = [])
    ∧ (∀ (esl : List EventRow) (x y : Int), y < x →
        get_events ⟨some l, some esl, cp⟩ (some (.dateStr x)) (some (.dateStr y)) none
          = .ok ⟨0, []⟩) := by
  refine ⟨?_, ?_, ?_⟩
  · cases a <;> cases b <;>
      simp [get_prices, datedSlice, copyDf, applyStartFilter, applyEndFilter,
        boundedSlice, List.filter_filter, Bool.and_comm]
  · intro x y hxy
    rw [boundedSlice, List.filter_eq_nil_iff]
    intro r _
    simp only [Option.all_some, Bool.and_eq_true, decide_eq_true_eq]
    omega
  · intro esl x y hxy
    have hnil : (esl.filter (fun r => decide (x ≤ r.date))).filter
        (fun r => decide (r.date ≤ y)) = [] := by
      rw [List.filter_filter, List.filter_eq_nil_iff]
      intro r _
      simp only [Bool.and_eq_true, decide_eq_true_eq]
      omega
    simp [get_events, datedSlice, copyDf, applyStartFilter, applyEndFilter,
      applyTypeFilter, hnil]

/-- C1 witness: an inverted range on the demo store selects nothing and the
events listing answers success with count zero. -/
theorem get_prices_filters_by_date_witness :
    boundedSlice [demoRow0, demoRow1] (some 5) (some 3) = []
    ∧ get_events ⟨some [demoRow0, demoRow1], some [demoEvent], some demoCp⟩
        (some (.dateStr 5)) (some (.dateStr 3)) none = .ok ⟨0, []⟩ :=
  ⟨(get_prices_filters_by_date [demoRow0, demoRow1] (some [demoEvent]) (some demoCp)
      (some 5) (some 3)).2.1 5 3 (by decide),
   (get_prices_filters_by_date [demoRow0, demoRow1] (some [demoEvent]) (some demoCp)
      (some 5) (some 3)).2.2 [demoEvent] 5 3 (by decide)⟩

/-- C8: routing any of the filtering or statistics requests leaves the module
state exactly as it was — the handlers bind only locals over a copy of the
snapshot — and the rows a price listing answers with are a sub-sequence of the
stored series, untouched elements included. -/
theorem routes_preserve_store (st : Store) (a b : Option QueryStr) (t : Option String) :
    (get_prices_route st a b).2 = st
    ∧ (get_events_route st a b t).2 = st
    ∧ (get_statistics_route st a b).2 = st
    ∧ (∀ (r : Listing PriceRow) (l : List PriceRow),
        get_prices st a b = .ok r → st.price_data = some l → r.data.Sublist l) := by
  refine ⟨rfl, rfl, rfl, ?_⟩
  intro r l hr hl
  rw [get_prices, hl] at hr
  split at hr
  · rename_i df heq
    cases hr
    exact datedSlice_sublist _ _ _ _ _ heq
  · cases hr

/-- C8 witness: a concrete successful listing whose rows form a sub-sequence
of the stored demo series. -/
theorem routes_preserve_store_witness :
    List.Sublist [demoRow0, demoRow1] [demoRow0, demoRow1] :=
  (routes_preserve_store demoStore none none none).2.2.2
    ⟨2, [demoRow0, demoRow1]⟩ [demoRow0, demoRow1] rfl rfl

/-- C9 counterexample: after a failed load the changepoint endpoint does not
report a failure at all — it answers success with a null payload, so not
every data-dependent operation reports the load failure. -/
theorem get_changepoint_failed_load_cex :
    get_changepoint failedStore = .ok none
    ∧ (get_changepoint failedStore).isFailure = false :=
  ⟨rfl, rfl⟩

/-- C9 amended: the health endpoint succeeds in every store state; after a
failed load the price, event, statistics, event-type and date-range
operations all answer the 500 failure shape, while the changepoint operation
instead answers success with null data. -/
theorem failed_load_behaviour (st : Store) (a b : Option QueryStr) (t : Option String) :
    (health_check st).isFailure = false
    ∧ (get_prices failedStore a b).isFailure = true
    ∧ (get_events failedStore a b t).isFailure = true
    ∧ (get_statistics failedStore a b).isFailure = true
    ∧ (get_event_types failedStore).isFailure = true
    ∧ (get_date_range failedStore).isFailure = true
    ∧ get_changepoint failedStore = .ok none :=
  ⟨rfl, rfl, rfl, rfl, rfl, rfl, rfl⟩

/-- C10: every successful listing response of the price and event endpoints
reports a count equal to the number of records in its data list. -/
theorem listing_count_consistent (st : Store) (a b : Option QueryStr) (t : Option String) :
    (∀ r : Listing PriceRow, get_prices st a b = .ok r → r.count = r.data.length)
    ∧ (∀ r : Listing EventRow, get_events st a b t = .ok r → r.count = r.data.length) := by
  constructor
  · intro r hr
    rw [get_prices] at hr
    split at hr
    · cases hr; rfl
    · cases hr
  · intro r hr
    rw [get_events] at hr
    split at hr
    · cases hr; rfl
    · cases hr

/-- C10 witness: the unfiltered demo listings report their own lengths. -/
theorem listing_count_consistent_witness :
    (Listing.mk 2 [demoRow0, demoRow1] : Listing PriceRow).count
        = [demoRow0, demoRow1].length
    ∧ (Listing.mk 1 [demoEvent] : Listing EventRow).count = [demoEvent].length :=
  ⟨(listing_count_consistent demoStore none none none).1
      ⟨2, [demoRow0, demoRow1]⟩ rfl,
   (listing_count_consistent demoStore none none none).2
      ⟨1, [demoEvent]⟩ rfl⟩

/-- Dropping NaN cells from an all-defined column changes nothing. -/
theorem dropna_map_some (d : List Rat) : dropna (d.map some) = d := by
  simp [dropna]

/-- The column mean, written as a conditional over the defined cells. -/
theorem seriesMean_eq_if (xs : List (Option Rat)) :
    seriesMean xs = if dropna xs = [] then JVal.nan
      else JVal.num ((dropna xs).sum / (((dropna xs).length : Nat) : Rat)) := by
  unfold seriesMean
  split
  · rename_i heq; simp [heq]
  · rename_i x d heq; simp [heq]

/-- The (squared) column std, written as a conditional over the defined
cells, with the sample variance on the defined branch. -/
theorem seriesStdSq_eq_if (xs : List (Option Rat)) :
    seriesStdSq xs = if (dropna xs).length < 2 then JVal.nan
      else JVal.num (sampleVarSq (dropna xs)) := by
  unfold seriesStdSq sampleVarSq
  rfl

/-- The Price column of a slice is its price list, each cell defined. -/
theorem priceCol_eq (df : List PriceRow) :
    priceCol df = (df.map PriceRow.price).map some := by
  simp [priceCol, List.map_map]

/-- Counting the defined cells of a column counts the rows that carry one. -/
theorem dropna_length (xs : List (Option Rat)) :
    (dropna xs).length = (xs.filter (fun c => c.isSome)).length := by
  induction xs with
  | nil => rfl
  | cons x xs ih =>
    cases x with
    | none => simpa [dropna, List.filterMap_cons] using ih
    | some v => simpa [dropna, List.filterMap_cons] using ih

/-- The statistics handler on a loaded store with parsed bounds, evaluated:
success, with every field the corresponding pandas reduction of the slice. -/
theorem get_statistics_eval (l : List PriceRow) (es : Option (List EventRow))
    (cp : Option CpResults) (a b : Option Int) :
    get_statistics ⟨some l, es, cp⟩ (a.map .dateStr) (b.map .dateStr)
      = .ok ⟨(boundedSlice l a b).length,
             seriesMean (priceCol (boundedSlice l a b)),
             seriesMedian (priceCol (boundedSlice l a b)),
             seriesStdSq (priceCol (boundedSlice l a b)),
             seriesMin (priceCol (boundedSlice l a b)),
             seriesMax (priceCol (boundedSlice l a b)),
             seriesMean (returnCol (boundedSlice l a b)),
             seriesStdSq (returnCol (boundedSlice l a b))⟩ := by
  simp only [get_statistics]
  rw [datedSlice_parsed]
  rfl

/-- C2 counterexample: the statistics operation answers NaN, not null, in
every non-count field of an empty (N = 0) slice, and NaN, not 0, as the std
of a singleton (N = 1) slice — so callers do receive NaN. -/
theorem get_statistics_nan_cex :
    get_statistics demoStore (some (.dateStr 10)) none
      = .ok ⟨0, .nan, .nan, .nan, .nan, .nan, .nan, .nan⟩
    ∧ get_statistics demoStore (some (.dateStr 1)) none
      = .ok ⟨1, .num 51, .num 51, .nan, .num 51, .num 51, .num (1/100), .nan⟩
    ∧ JVal.nan ≠ JVal.null ∧ JVal.nan ≠ JVal.num 0 := by
  refine ⟨?_, ?_, by decide, by decide⟩
  · norm_num [get_statistics, datedSlice, copyDf, applyStartFilter, applyEndFilter,
      demoStore, demoRow0, demoRow1, seriesMean, seriesMedian, seriesStdSq,
      seriesMin, seriesMax, priceCol, returnCol, dropna, List.filterMap_cons, id_eq]
  · norm_num [get_statistics, datedSlice, copyDf, applyStartFilter, applyEndFilter,
      demoStore, demoRow0, demoRow1, seriesMean, seriesMedian, seriesStdSq,
      seriesMin, seriesMax, priceCol, returnCol, dropna, List.filterMap_cons, id_eq]

/-- C2 amended: the statistics of any parsed-bounds slice of a loaded store
report count = N; the mean is NaN — not null — for N = 0; the std is NaN —
not 0 — for N = 1 (and N = 0); for N at least 2 the std is the sample
standard deviation with the N-1 denominator (recorded squared); and the
whole record of an N = 0 slice is count 0 with every other field NaN. -/
theorem get_statistics_n_policy (l : List PriceRow) (es : Option (List EventRow))
    (cp : Option CpResults) (a b : Option Int) :
    ∃ s : StatsOut,
      get_statistics ⟨some l, es, cp⟩ (a.map .dateStr) (b.map .dateStr) = .ok s
      ∧ s.count = (slicePrices l a b).length
      ∧ s.mean_price = (if (slicePrices l a b).length = 0 then JVal.nan
            else JVal.num ((slicePrices l a b).sum / (((slicePrices l a b).length : Nat) : Rat)))
      ∧ s.std_price = (if (slicePrices l a b).length < 2 then JVal.nan
            else JVal.num (sampleVarSq (slicePrices l a b)))
      ∧ ((slicePrices l a b).length = 0 →
            s = ⟨0, JVal.nan, JVal.nan, JVal.nan, JVal.nan, JVal.nan, JVal.nan, JVal.nan⟩) := by
  refine ⟨_, get_statistics_eval l es cp a b, ?_, ?_, ?_, ?_⟩
  · simp [slicePrices]
  · rw [priceCol_eq, seriesMean_eq_if, dropna_map_some]
    simp only [slicePrices, List.length_eq_zero]
  · rw [priceCol_eq, seriesStdSq_eq_if, dropna_map_some]
    rfl
  · intro h0
    have hb : boundedSlice l a b = [] := by
      rw [slicePrices, List.length_map, List.length_eq_zero] at h0
      exact h0
    simp only [hb]
    rfl

/-- C2 witness: instantiating the amended statement on the demo store with
an out-of-range bound discharges the N = 0 hypothesis and yields the
all-NaN record. -/
theorem get_statistics_n_policy_witness :
    ∃ s : StatsOut,
      get_statistics ⟨some [demoRow0, demoRow1], some [demoEvent], some demoCp⟩
          ((some 10 : Option Int).map .dateStr) ((none : Option Int).map .dateStr) = .ok s
      ∧ s = ⟨0, JVal.nan, JVal.nan, JVal.nan, JVal.nan, JVal.nan, JVal.nan, JVal.nan⟩ := by
  obtain ⟨s, h1, -, -, -, hz⟩ :=
    get_statistics_n_policy [demoRow0, demoRow1] (some [demoEvent]) (some demoCp)
      (some 10) none
  exact ⟨s, h1, hz (by decide)⟩

/-- C5 counterexample: a nonempty slice none of whose observations carries a
defined log_return (the first row of the series alone) still receives
mean_return and volatility fields — holding NaN, which is not null/absent. -/
theorem get_statistics_return_cex :
    get_statistics demoStore none (some (.dateStr 0))
      = .ok ⟨1, .num 50, .num 50, .nan, .num 50, .num 50, .nan, .nan⟩
    ∧ JVal.nan ≠ JVal.null := by
  refine ⟨?_, by decide⟩
  norm_num [get_statistics, datedSlice, copyDf, applyStartFilter, applyEndFilter,
    demoStore, demoRow0, demoRow1, seriesMean, seriesMedian, seriesStdSq,
    seriesMin, seriesMax, priceCol, returnCol, dropna, List.filterMap_cons, id_eq]

/-- C5 amended: on a loaded store the return statistics are always present as
fields; NaN log_return cells are excluded from both the mean and the std —
not coerced to zero — so each reduction ranges over exactly the defined
cells, whose count is exactly the number of rows carrying one; when no
defined cell exists in the slice both fields hold NaN rather than being
absent (the std, with its N-1 denominator, is NaN whenever fewer than two
defined cells remain). -/
theorem get_statistics_return_fields (l : List PriceRow) (es : Option (List EventRow))
    (cp : Option CpResults) (a b : Option Int) :
    ∃ s : StatsOut,
      get_statistics ⟨some l, es, cp⟩ (a.map .dateStr) (b.map .dateStr) = .ok s
      ∧ s.mean_return = (if definedReturns l a b = [] then JVal.nan
            else JVal.num ((definedReturns l a b).sum
                    / (((definedReturns l a b).length : Nat) : Rat)))
      ∧ s.volatility = (if (definedReturns l a b).length < 2 then JVal.nan
            else JVal.num (sampleVarSq (definedReturns l a b)))
      ∧ (definedReturns l a b).length
          = ((boundedSlice l a b).filter (fun r => r.log_return.isSome)).length := by
  refine ⟨_, get_statistics_eval l es cp a b, ?_, ?_, ?_⟩
  · simpa [definedReturns] using seriesMean_eq_if (returnCol (boundedSlice l a b))
  · simpa [definedReturns] using seriesStdSq_eq_if (returnCol (boundedSlice l a b))
  · rw [definedReturns, dropna_length, returnCol, List.filter_map, List.length_map]
    rfl

/-- C3: on any filtered slice the strict-before / inclusive-after partition
at the changepoint date is disjoint, together a permutation of the slice
(so their union is exactly the slice), and every boundary-date observation
lands in the after partition. -/
theorem before_after_partition (df : List PriceRow) (cp : Int) :
    (∀ x, x ∈ before_slice df cp → x ∉ after_slice df cp)
    ∧ (before_slice df cp ++ after_slice df cp).Perm df
    ∧ (∀ x ∈ df, x.date = cp → x ∈ after_slice df cp) := by
  refine ⟨?_, ?_, ?_⟩
  · intro x hx hx'
    rw [before_slice, List.mem_filter] at hx
    rw [after_slice, List.mem_filter] at hx'
    have h1 := hx.2
    have h2 := hx'.2
    simp only [decide_eq_true_eq] at h1 h2
    omega
  · have hcongr : after_slice df cp = df.filter (fun r => !(decide (r.date < cp))) := by
      rw [after_slice]
      apply List.filter_congr
      intro x _
      rcases lt_or_le x.date cp with h | h
      · simp [h, h.not_le]
      · simp [h, h.not_lt]
    rw [before_slice, hcongr]
    exact List.filter_append_perm _ _
  · intro x hx hdate
    rw [after_slice, List.mem_filter]
    exact ⟨hx, by simp [hdate]⟩

/-- C3 witness: a one-row slice dated exactly at the changepoint — the
partition exhausts the slice and the boundary row lands in after. -/
theorem before_after_partition_witness :
    (before_slice [demoRow0] 0 ++ after_slice [demoRow0] 0).Perm [demoRow0]
    ∧ demoRow0 ∈ after_slice [demoRow0] 0 :=
  ⟨(before_after_partition [demoRow0] 0).2.1,
   (before_after_partition [demoRow0] 0).2.2 demoRow0 (by simp) rfl⟩

/-- C4 counterexample: two events equidistant from the changepoint, the
later-dated one listed first in the catalog; the code keeps the catalog
order, while the claimed tie-break demands the earlier date first. -/
theorem correlate_tiebreak_cex :
    (correlate [evLater, evEarlier] 0).map (fun r => r.event.date) = [1, -1]
    ∧ ([1, -1] : List Int) ≠ [-1, 1] := by
  constructor
  · rfl
  · decide

/-- C4 amended: the proximity view sorts ascending by abs_days, outputs a
permutation of the decorated catalog rows, and — being a pure function whose
sort key consults only abs_days — is deterministic, with ties on equal
abs_days kept in original catalog order (the event date plays no role). -/
theorem correlate_sorted_stable (events : List EventRow) (cp : Int) :
    (correlate events cp).Pairwise byAbsDays
    ∧ (correlate events cp).Perm (corrRows events cp)
    ∧ (∀ k : Nat, (correlate events cp).filter (fun r => decide (r.abs_days = k))
        = (corrRows events cp).filter (fun r => decide (r.abs_days = k))) := by
  refine ⟨List.sorted_insertionSort byAbsDays (corrRows events cp),
    List.perm_insertionSort byAbsDays (corrRows events cp), ?_⟩
  intro k
  have hidem : ((corrRows events cp).filter (fun r => decide (r.abs_days = k))).filter
      (fun r => decide (r.abs_days = k))
      = (corrRows events cp).filter (fun r => decide (r.abs_days = k)) := by
    rw [List.filter_filter]
    apply List.filter_congr
    intro x _
    simp [Bool.and_self]
  have hpair : ((corrRows events cp).filter (fun r => decide (r.abs_days = k))).Pairwise
      byAbsDays := by
    apply List.pairwise_of_forall_mem_list
    intro x hx y hy
    rw [List.mem_filter] at hx hy
    have hxk := of_decide_eq_true hx.2
    have hyk := of_decide_eq_true hy.2
    rw [byAbsDays, hxk, hyk]
  have hsub : ((corrRows events cp).filter (fun r => decide (r.abs_days = k))).Sublist
      (correlate events cp) :=
    List.sublist_insertionSort hpair (List.filter_sublist _)
  have hsubf := hsub.filter (fun r => decide (r.abs_days = k))
  rw [hidem] at hsubf
  have hperm : ((correlate events cp).filter (fun r => decide (r.abs_days = k))).Perm
      ((corrRows events cp).filter (fun r => decide (r.abs_days = k))) :=
    (List.perm_insertionSort byAbsDays (corrRows events cp)).filter _
  exact (hsubf.eq_of_length hperm.length_eq.symm).symm

/-- C6 counterexample: the empty string is an event_type value not present in
the demo catalog, yet the handler treats it as falsy and answers the whole
catalog (count 1), not an empty result. -/
theorem get_events_empty_type_cex :
    get_events ⟨some [], some [demoEvent], none⟩ none none (some "")
      = .ok ⟨1, [demoEvent]⟩
    ∧ "" ∉ [demoEvent].map EventRow.event_type := by
  constructor
  · rfl
  · decide

/-- C6 amended: any nonempty requested event_type absent from the catalog
yields success with count 0 and an empty list — never an error — while the
empty-string value is instead treated as no filter at all (Python falsiness),
the request behaving exactly like one without the parameter. -/
theorem get_events_unknown_type (ps : Option (List PriceRow)) (es : List EventRow)
    (cp : Option CpResults) (t : String) (ht : ¬ t = "")
    (hm : ∀ e ∈ es, ¬ e.event_type = t) :
    get_events ⟨ps, some es, cp⟩ none none (some t) = .ok ⟨0, []⟩
    ∧ (∀ st : Store, get_events st none none (some "") = get_events st none none none) := by
  constructor
  · have hnil : es.filter (fun e => decide (e.event_type = t)) = [] := by
      rw [List.filter_eq_nil_iff]
      intro e he
      simpa using hm e he
    simp [get_events, datedSlice, copyDf, applyStartFilter, applyEndFilter,
      applyTypeFilter, ht, hnil]
  · intro st
    rcases st with ⟨pd, ed, cpr⟩
    cases ed <;> rfl

/-- C6 witness: a type value foreign to the demo catalog answers success
with an empty listing. -/
theorem get_events_unknown_type_witness :
    get_events ⟨some [demoRow0, demoRow1], some [demoEvent], some demoCp⟩
        none none (some "Pandemic") = .ok ⟨0, []⟩ :=
  (get_events_unknown_type (some [demoRow0, demoRow1]) [demoEvent] (some demoCp)
      "Pandemic" (by decide) (by decide)).1

/-- C7 counterexample: the empty string is not a parseable ISO-8601 date, yet
the price listing silently succeeds on it instead of failing with a
client-input error; a nonempty unparseable date does fail, but with the same
500 status the not-loaded (DataUnavailable) failure carries — no distinct
InvalidArgument category exists. -/
theorem get_prices_bad_date_cex :
    (get_prices demoStore (some .empty) none).isFailure = false
    ∧ (get_prices demoStore (some (.malformed "not-a-date")) none).httpStatus = 500
    ∧ (get_prices failedStore none none).httpStatus = 500 :=
  ⟨rfl, rfl, rfl⟩

/-- C7 amended: a nonempty unparseable date string makes the operation fail,
but as the generic 500 error-string response — the same status class as the
not-loaded failure, with no distinct InvalidArgument category — while an
empty-string date parameter is treated exactly as an absent one and does not
fail. -/
theorem get_prices_malformed_date (l : List PriceRow) (es : Option (List EventRow))
    (cp : Option CpResults) (s : String) (b : Option QueryStr) :
    (get_prices ⟨some l, es, cp⟩ (some (.malformed s)) b).isFailure = true
    ∧ (get_prices ⟨some l, es, cp⟩ (some (.malformed s)) b).httpStatus
        = (get_prices failedStore none none).httpStatus
    ∧ (∀ (st : Store) (b2 : Option QueryStr),
        get_prices st (some .empty) b2 = get_prices st none b2) := by
  refine ⟨rfl, rfl, ?_⟩
  intro st b2
  rcases st with ⟨pd, ed, cpr⟩
  cases pd <;> rfl

end OilMarket
